import Mathlib

/-!
Verification of the `todo` terminal application (`src/main.rs`, `src/events.rs`).

The development shallowly embeds the task data model, the startup merge of the
weekday template with the daily snapshot, and the keyboard-driven state machine
of the main loop.  Machine integers are modelled as `Int`/`Nat` with explicit
two's-complement wrapping where Rust release-mode semantics wrap (`as` casts and
overflowing arithmetic).  Rust panics (`unwrap` on `None`, `expect`) are
modelled as explicit failure outcomes.
-/

namespace TodoApp

/-- `enum Status { Todo, Done }` from `main.rs`. -/
inductive Status where
  | Todo
  | Done
deriving DecidableEq, Repr

/-- `struct Task { status: Status, info: String }` from `main.rs`. -/
structure Task where
  status : Status
  info : String
deriving DecidableEq, Repr

/-- The weekdays, standing for `chrono::Weekday`. -/
inductive Weekday where
  | Mon | Tue | Wed | Thu | Fri | Sat | Sun
deriving DecidableEq, Repr

/-- `struct WeekdayTask { tasks: Vec<String>, day_info: String }` from `main.rs`. -/
structure WeekdayTask where
  tasks : List String
  day_info : String
deriving DecidableEq, Repr

/-- `struct WeekdayTasks { tasks: HashMap<Weekday, WeekdayTask> }`; the hash map
is modelled as an association list, only `get` is used by the program. -/
structure WeekdayTasks where
  tasks : List (Weekday × WeekdayTask)
deriving DecidableEq, Repr

/-- `HashMap::get` on the modelled map. -/
def WeekdayTasks.get (w : WeekdayTasks) (d : Weekday) : Option WeekdayTask :=
  (w.tasks.find? fun p => p.1 = d).map Prod.snd

/-- `impl Default for WeekdayTasks` from `main.rs`: Monday and Friday entries. -/
def WeekdayTasks.default : WeekdayTasks :=
  { tasks := [(Weekday.Mon, { tasks := ["check mail"], day_info := "business day" }),
              (Weekday.Fri, { tasks := ["cleanup mail"], day_info := "wrap up day" })] }

/-- `struct Today { tasks: Vec<Task>, date: Option<DateTime<Local>> }`; only the
weekday of the date is ever consulted, so the date is kept as its weekday. -/
structure Today where
  tasks : List Task
  date : Option Weekday
deriving DecidableEq, Repr

/-! ## Startup merge (`main.rs` lines 138–183) -/

/-- Outcome of `std::fs::read_to_string` followed by `serde_json::from_str`:
the file may be unreadable, readable but unparsable, or parsed. -/
inductive FileResult (α : Type) where
  | missing
  | malformed
  | parsed (val : α)
deriving DecidableEq, Repr

/-- Lines 155–163: today's template texts, each made a `Todo` task. -/
def templateTasks (texts : List String) : List Task :=
  texts.map fun s => { status := Status.Todo, info := s }

/-- The inner `for loaded_task in tasks.iter_mut()` loop (lines 171–175):
every task whose `info` equals the saved task's `info` gets the saved status. -/
def overwriteMatches (saved : Task) (tasks : List Task) : List Task :=
  tasks.map fun t => if t.info = saved.info then { t with status := saved.status } else t

/-- One iteration of the outer loop over saved tasks (lines 170–179):
overwrite matching statuses, then append the saved task when nothing matches. -/
def mergeStep (tasks : List Task) (saved : Task) : List Task :=
  if (overwriteMatches saved tasks).any (fun t => t.info = saved.info)
  then overwriteMatches saved tasks
  else overwriteMatches saved tasks ++ [saved]

/-- The whole outer loop of lines 170–179. -/
def mergeSaved (tasks : List Task) (savedTasks : List Task) : List Task :=
  savedTasks.foldl mergeStep tasks

/-- Lines 139–152: load the weekday template.  A missing file yields the
default, which is written back (second component `true`); a malformed file hits
`expect("corrupt file")`, modelled as an error. -/
def loadWeekdayTasks : FileResult WeekdayTasks → Except String (WeekdayTasks × Bool)
  | .parsed wt => .ok (wt, false)
  | .malformed => .error "corrupt file"
  | .missing => .ok (WeekdayTasks.default, true)

/-- `weekday_tasks.tasks.get(&weekday)` at line 156, defaulting to no tasks. -/
def templateTexts (wt : WeekdayTasks) (w : Weekday) : List String :=
  match wt.get w with
  | some dt => dt.tasks
  | none => []

/-- Lines 165–183: the snapshot is merged only when it parsed, carries a date,
and that date's weekday equals today's weekday. -/
def applySnapshot (tasks : List Task) (snap : FileResult Today) (w : Weekday) : List Task :=
  match snap with
  | .parsed today =>
    match today.date with
    | some d => if d = w then mergeSaved tasks today.tasks else tasks
    | none => tasks
  | _ => tasks

/-- Result of startup: the initial task list, and whether the default template
was written out because the template file was absent. -/
structure StartupResult where
  tasks : List Task
  wroteDefaultTemplate : Bool
deriving DecidableEq, Repr

/-- Lines 138–183 end to end: load the template (fatal on corruption), build
today's template tasks, merge a usable snapshot. -/
def startupTasks (tmpl : FileResult WeekdayTasks) (snap : FileResult Today)
    (w : Weekday) : Except String StartupResult :=
  match loadWeekdayTasks tmpl with
  | .error e => .error e
  | .ok (wt, wrote) =>
    .ok { tasks := applySnapshot (templateTasks (templateTexts wt w)) snap w,
          wroteDefaultTemplate := wrote }

/-! ## Machine-integer helpers

Rust release-profile semantics: `as` casts truncate / sign-extend, arithmetic
wraps.  `selected` is an `i32`; lengths are `usize` (64-bit). -/

/-- `i as usize` for `i: i32`: sign-extend and reinterpret in `[0, 2^64)`. -/
def i32ToUsize (i : Int) : Nat := (i % (2 : Int) ^ 64).toNat

/-- `n as i32` for `n: usize`: truncate to 32 bits, reinterpret as signed. -/
def usizeToI32 (n : Nat) : Int :=
  let m : Nat := n % 2 ^ 32
  if m < 2 ^ 31 then (m : Int) else (m : Int) - 2 ^ 32

/-- Wrapping `i32` arithmetic (release-profile overflow behaviour). -/
def i32Wrap (i : Int) : Int := (i + 2 ^ 31) % 2 ^ 32 - 2 ^ 31

/-- `n - 1` on `usize` with release-profile wrapping (`0 - 1 = 2^64 - 1`). -/
def usizeSub1 (n : Nat) : Nat := (n + 2 ^ 64 - 1) % 2 ^ 64

/-! ## The main-loop state machine (`main.rs` lines 192–335) -/

/-- `enum AppMode { Edit, Insert }`; the spec calls these Navigate and Compose. -/
inductive AppMode where
  | Edit
  | Insert
deriving DecidableEq, Repr

/-- The key codes the program distinguishes; `other` stands for every
`KeyCode` variant that falls into a `_ => {}` arm in both modes. -/
inductive KeyCode where
  | Char (c : Char)
  | Esc
  | Enter
  | Backspace
  | other
deriving DecidableEq, Repr

/-- The mutable state of the main loop: `tasks`, `selected`, `app_mode`,
`input_string` (lines 155, 192, 194, 195). -/
structure AppState where
  tasks : List Task
  selected : Int
  app_mode : AppMode
  input_string : String
deriving DecidableEq, Repr

/-- Outcome of handling one key: keep looping with a new state, quit (the `q`
arm saves the tasks, disables raw mode and returns `Ok`), or panic (an
`unwrap()` on `None`). -/
inductive StepOut where
  | running (s : AppState)
  | quit (saved : List Task)
  | panicked
deriving DecidableEq, Repr

/-- `tasks.get_mut(i)` followed by a status write; `none` means the
`unwrap()` at lines 274/279 panics. -/
def setStatusAt (ts : List Task) (i : Nat) (st : Status) : Option (List Task) :=
  match ts.get? i with
  | some t => some (ts.set i { t with status := st })
  | none => none

/-- The `AppMode::Edit` arm of the key match (lines 259–306). -/
def stepEdit (key : KeyCode) (s : AppState) : StepOut :=
  match key with
  | .Char c =>
    if c = 'j' then
      -- selected += 1; if selected as usize >= tasks.len() { selected = 0; }
      let sel := i32Wrap (s.selected + 1)
      let sel := if s.tasks.length ≤ i32ToUsize sel then 0 else sel
      .running { s with selected := sel }
    else if c = 'k' then
      -- selected -= 1; if selected < 0 { selected = (tasks.len() - 1) as i32; }
      let sel := i32Wrap (s.selected - 1)
      let sel := if sel < 0 then usizeToI32 (usizeSub1 s.tasks.length) else sel
      .running { s with selected := sel }
    else if c = 'l' then
      -- tasks.get_mut(selected as usize).unwrap().status = Done
      match setStatusAt s.tasks (i32ToUsize s.selected) Status.Done with
      | some ts => .running { s with tasks := ts }
      | none => .panicked
    else if c = 'h' then
      -- tasks.get_mut(selected as usize).unwrap().status = Todo
      match setStatusAt s.tasks (i32ToUsize s.selected) Status.Todo with
      | some ts => .running { s with tasks := ts }
      | none => .panicked
    else if c = 'i' then
      .running { s with app_mode := AppMode.Insert }
    else if c = 'x' then
      -- bounds-checked remove, then clamp selected to the new length
      if 0 ≤ s.selected ∧ s.selected < (s.tasks.length : Int) then
        let ts := s.tasks.eraseIdx (i32ToUsize s.selected)
        let sel := if ts.length ≤ i32ToUsize s.selected
                   then i32Wrap (usizeToI32 ts.length - 1) else s.selected
        .running { s with tasks := ts, selected := sel }
      else .running s
    else if c = 'q' then
      -- save_today(&tasks, ...); disable_raw_mode; return Ok(())
      .quit s.tasks
    else .running s
  | _ => .running s

/-- The `AppMode::Insert` arm of the key match (lines 309–330). -/
def stepInsert (key : KeyCode) (s : AppState) : StepOut :=
  match key with
  | .Esc =>
    -- app_mode = Edit; input_string.clear()
    .running { s with app_mode := AppMode.Edit, input_string := "" }
  | .Enter =>
    -- app_mode = Edit; push Task { Todo, input_string.drain(..).collect() }
    .running { s with app_mode := AppMode.Edit,
                      tasks := s.tasks ++ [{ status := Status.Todo, info := s.input_string }],
                      input_string := "" }
  | .Backspace => .running { s with input_string := s.input_string.dropRight 1 }
  | .Char c => .running { s with input_string := s.input_string.push c }
  | .other => .running s

/-- Dispatch on `app_mode` (line 257). -/
def step (key : KeyCode) (s : AppState) : StepOut :=
  match s.app_mode with
  | .Edit => stepEdit key s
  | .Insert => stepInsert key s

/-- Run a sequence of key events, stopping at quit or panic. -/
def run (keys : List KeyCode) (s : AppState) : StepOut :=
  match keys with
  | [] => .running s
  | k :: ks =>
    match step k s with
    | .running s' => run ks s'
    | out => out

/-! ## The main loop with terminal raw mode (`main.rs` lines 186–335)

`enable_raw_mode` runs before the loop.  Each iteration first calls
`terminal.draw(..)?` — on error the `?` propagates without touching raw mode —
then processes at most one event from `events.next()` (iterating the
`Result`); `Tick` events and receive errors yield no key.  Only the `q` arm
calls `disable_raw_mode` (both sides of the merge conflict at lines 298–302 do)
before returning; a panic also leaves raw mode enabled. -/

/-- One scripted loop iteration: whether `terminal.draw` succeeds, and the key
delivered by `events.next()` (if the event was an `Input`). -/
structure IterInput where
  drawOk : Bool
  event : Option KeyCode
deriving DecidableEq, Repr

/-- How the process ends, with the raw-mode flag at exit. -/
inductive MainExit where
  | okQuit (saved : List Task) (rawAtExit : Bool)
  | errExit (rawAtExit : Bool)
  | panicExit (rawAtExit : Bool)
deriving DecidableEq, Repr

/-- The main loop given scripted iteration inputs; `raw` is the terminal
raw-mode flag, `none` means the script ran out while the loop continued. -/
def mainLoop : List IterInput → Bool → AppState → Option MainExit
  | [], _, _ => none
  | it :: rest, raw, s =>
    if it.drawOk then
      match it.event with
      | none => mainLoop rest raw s
      | some key =>
        match step key s with
        | .running s' => mainLoop rest raw s'
        | .quit saved => some (.okQuit saved false)  -- disable_raw_mode ran
        | .panicked => some (.panicExit raw)
    else
      some (.errExit raw)  -- `?` propagates the io::Error, raw mode untouched

/-- Lines 186 onward: raw mode is enabled, then the loop runs. -/
def mainAfterStartup (iters : List IterInput) (s : AppState) : Option MainExit :=
  mainLoop iters true s

/-- The draft-empty-in-Navigate invariant: whenever the mode is `Edit`
(Navigate), the input buffer is empty. -/
def NavDraftInv (s : AppState) : Prop :=
  s.app_mode = AppMode.Edit → s.input_string = ""

/-! ## Theorems -/

/-- C1: with template `["a","b"]` (both Todo) and a same-weekday snapshot
`[{a,Done},{c,Todo}]`, startup yields `[{a,Done},{b,Todo},{c,Todo}]`:
template tasks first in template order with statuses overwritten by matching
saved tasks, then snapshot-only tasks appended in saved order. -/
theorem startup_merge_example :
    startupTasks
      (FileResult.parsed ⟨[(Weekday.Wed, ⟨["a", "b"], "midweek"⟩)]⟩)
      (FileResult.parsed ⟨[⟨Status.Done, "a"⟩, ⟨Status.Todo, "c"⟩], some Weekday.Wed⟩)
      Weekday.Wed
    = Except.ok ⟨[⟨Status.Done, "a"⟩, ⟨Status.Todo, "b"⟩, ⟨Status.Todo, "c"⟩], false⟩ := by
  rfl

/-- C2: on an empty task list in Navigate mode, mark-done (`l`) and mark-todo
(`h`) are NOT no-ops: both hit `tasks.get_mut(..).unwrap()` on `None` and
panic; move-up (`k`) mutates `selected` from `0` to `-1` via the wrapping
`(tasks.len() - 1) as i32`; only move-down (`j`) leaves the state unchanged. -/
theorem navigate_empty_list_panics :
    step (KeyCode.Char 'l') ⟨[], 0, AppMode.Edit, ""⟩ = StepOut.panicked ∧
    step (KeyCode.Char 'h') ⟨[], 0, AppMode.Edit, ""⟩ = StepOut.panicked ∧
    step (KeyCode.Char 'k') ⟨[], 0, AppMode.Edit, ""⟩
      = StepOut.running ⟨[], -1, AppMode.Edit, ""⟩ ∧
    step (KeyCode.Char 'j') ⟨[], 0, AppMode.Edit, ""⟩
      = StepOut.running ⟨[], 0, AppMode.Edit, ""⟩ := by
  refine ⟨by decide, by decide, by decide, by decide⟩

/-- C8: deleting the selected last task of `["a","b"]` clamps the selection to
the new last index `0`; deleting the only task yields the empty list with
`selected = -1`, after which mark-done (`l`) panics — the post-delete state is
not safe for subsequent operations. -/
theorem delete_clamp_then_empty_panics :
    step (KeyCode.Char 'x') ⟨[⟨Status.Todo, "a"⟩, ⟨Status.Todo, "b"⟩], 1, AppMode.Edit, ""⟩
      = StepOut.running ⟨[⟨Status.Todo, "a"⟩], 0, AppMode.Edit, ""⟩ ∧
    step (KeyCode.Char 'x') ⟨[⟨Status.Todo, "a"⟩], 0, AppMode.Edit, ""⟩
      = StepOut.running ⟨[], -1, AppMode.Edit, ""⟩ ∧
    run [KeyCode.Char 'x', KeyCode.Char 'l'] ⟨[⟨Status.Todo, "a"⟩], 0, AppMode.Edit, ""⟩
      = StepOut.panicked := by
  refine ⟨by decide, by decide, by decide⟩

/-- C4: raw mode is NOT released on every exit path.  A failing
`terminal.draw(..)?` propagates the error with raw mode still enabled, and a
panic (here: `l` on an empty list) also exits with raw mode enabled; only the
`q` quit path calls `disable_raw_mode`. -/
theorem raw_mode_leaked_on_error_exit :
    mainAfterStartup [⟨false, none⟩] ⟨[], 0, AppMode.Edit, ""⟩
      = some (MainExit.errExit true) ∧
    mainAfterStartup [⟨true, some (KeyCode.Char 'l')⟩] ⟨[], 0, AppMode.Edit, ""⟩
      = some (MainExit.panicExit true) ∧
    mainAfterStartup [⟨true, some (KeyCode.Char 'q')⟩] ⟨[], 0, AppMode.Edit, ""⟩
      = some (MainExit.okQuit [] false) := by
  refine ⟨by decide, by decide, by decide⟩

/-- C3 counterexample: with template `["a","a"]` and saved task `{a,Done}`,
the merge overwrites BOTH matching tasks (the inner loop has no break), not
just the first as the claim states. -/
theorem merge_first_match_counterexample :
    mergeSaved (templateTasks ["a", "a"]) [⟨Status.Done, "a"⟩]
      = [⟨Status.Done, "a"⟩, ⟨Status.Done, "a"⟩] ∧
    mergeSaved (templateTasks ["a", "a"]) [⟨Status.Done, "a"⟩]
      ≠ [⟨Status.Done, "a"⟩, ⟨Status.Todo, "a"⟩] := by
  refine ⟨by decide, by decide⟩

/-- C3 amended, helper fact: the overwrite pass is a map, so positions are
preserved and the merged list extends the input pointwise. -/
lemma overwriteMatches_getElem (saved : Task) (tasks : List Task) (i : Nat)
    (h : i < tasks.length) (hinfo : tasks[i].info = saved.info) :
    (overwriteMatches saved tasks)[i]?
      = some { status := saved.status, info := tasks[i].info } := by
  unfold overwriteMatches
  rw [List.getElem?_map, List.getElem?_eq_getElem h]
  simp only [Option.map]
  rw [if_pos hinfo]

/-- C3 amended: all-match overwrite semantics.  For every position `i` whose
task text equals the saved task's text, one merge iteration sets that
position's status to the saved status — every match is overwritten, not only
the first. -/
theorem mergeStep_overwrites_all_matches (tasks : List Task) (saved : Task)
    (i : Nat) (h : i < tasks.length)
    (hinfo : tasks[i].info = saved.info) :
    (mergeStep tasks saved)[i]?
      = some { status := saved.status, info := tasks[i].info } := by
  have hget := overwriteMatches_getElem saved tasks i h hinfo
  have hlen : (overwriteMatches saved tasks).length = tasks.length := by
    simp [overwriteMatches]
  unfold mergeStep
  split
  · exact hget
  · rw [List.getElem?_append_left (by rw [hlen]; exact h)]
    exact hget

/-- C3 amended, witness: in `[{a,Todo},{a,Todo}]` merged with `{a,Done}`, the
second (not only the first) occurrence ends up `Done`. -/
theorem mergeStep_overwrites_all_matches_witness :
    (mergeStep [⟨Status.Todo, "a"⟩, ⟨Status.Todo, "a"⟩] ⟨Status.Done, "a"⟩)[1]?
      = some ⟨Status.Done, "a"⟩ :=
  mergeStep_overwrites_all_matches [⟨Status.Todo, "a"⟩, ⟨Status.Todo, "a"⟩]
    ⟨Status.Done, "a"⟩ 1 (by decide) (by decide)

/-- C6 counterexample: merging the snapshot equal to
`[{a,Todo},{a,Done}]` into that very list changes it to
`[{a,Done},{a,Done}]` — idempotence fails when duplicate-text tasks carry
different statuses. -/
theorem merge_idempotence_counterexample :
    mergeSaved [⟨Status.Todo, "a"⟩, ⟨Status.Done, "a"⟩]
        [⟨Status.Todo, "a"⟩, ⟨Status.Done, "a"⟩]
      ≠ [⟨Status.Todo, "a"⟩, ⟨Status.Done, "a"⟩] := by
  decide

/-- C6 amended, helper: when tasks sharing a text share a status, the
overwrite pass with a member of the list changes nothing. -/
lemma overwriteMatches_self (L : List Task) (s : Task) (hs : s ∈ L)
    (h : ∀ t₁ ∈ L, ∀ t₂ ∈ L, t₁.info = t₂.info → t₁.status = t₂.status) :
    overwriteMatches s L = L := by
  unfold overwriteMatches
  have hmap : ∀ t ∈ L,
      (if t.info = s.info then { t with status := s.status } else t) = id t := by
    intro t ht
    by_cases hinfo : t.info = s.info
    · have hst : t.status = s.status := h t ht s hs hinfo
      obtain ⟨st, info⟩ := t
      simp_all
    · simp [hinfo]
  rw [List.map_congr_left hmap, List.map_id]

/-- C6 amended, helper: one merge iteration with a member of a
status-consistent list is the identity. -/
lemma mergeStep_self (L : List Task) (s : Task) (hs : s ∈ L)
    (h : ∀ t₁ ∈ L, ∀ t₂ ∈ L, t₁.info = t₂.info → t₁.status = t₂.status) :
    mergeStep L s = L := by
  unfold mergeStep
  rw [overwriteMatches_self L s hs h]
  have hany : L.any (fun t => t.info = s.info) = true :=
    List.any_eq_true.mpr ⟨s, hs, by simp⟩
  simp [hany]

/-- C6 amended, helper: folding the merge over any sublist of members is the
identity. -/
lemma foldl_mergeStep_self (L : List Task)
    (h : ∀ t₁ ∈ L, ∀ t₂ ∈ L, t₁.info = t₂.info → t₁.status = t₂.status) :
    ∀ S : List Task, (∀ s ∈ S, s ∈ L) → List.foldl mergeStep L S = L := by
  intro S
  induction S with
  | nil => intro _; rfl
  | cons s S ih =>
    intro hsub
    rw [List.foldl_cons, mergeStep_self L s (hsub s (by simp)) h]
    exact ih fun x hx => hsub x (by simp [hx])

/-- C6 amended: merge idempotence holds for every task list in which tasks
sharing the same text also share the same status (in particular for every
list with pairwise-distinct texts): merging a snapshot equal to the list
into itself leaves it unchanged. -/
theorem mergeSaved_self_idempotent (L : List Task)
    (h : ∀ t₁ ∈ L, ∀ t₂ ∈ L, t₁.info = t₂.info → t₁.status = t₂.status) :
    mergeSaved L L = L :=
  foldl_mergeStep_self L h L fun _ hx => hx

/-- C6 amended, witness: idempotence at the concrete list `[{a,Todo},{b,Done}]`. -/
theorem mergeSaved_self_idempotent_witness :
    mergeSaved [⟨Status.Todo, "a"⟩, ⟨Status.Done, "b"⟩]
        [⟨Status.Todo, "a"⟩, ⟨Status.Done, "b"⟩]
      = [⟨Status.Todo, "a"⟩, ⟨Status.Done, "b"⟩] :=
  mergeSaved_self_idempotent [⟨Status.Todo, "a"⟩, ⟨Status.Done, "b"⟩] (by decide)

/-- C5: a parsed snapshot whose saved date's weekday differs from today's
weekday is ignored entirely: startup yields exactly the template-only tasks,
with no statuses overwritten and nothing appended. -/
theorem snapshot_wrong_weekday_ignored (wt : WeekdayTasks) (snapTasks : List Task)
    (d w : Weekday) (h : d ≠ w) :
    startupTasks (FileResult.parsed wt) (FileResult.parsed ⟨snapTasks, some d⟩) w
      = Except.ok ⟨templateTasks (templateTexts wt w), false⟩ := by
  simp [startupTasks, loadWeekdayTasks, applySnapshot, h]

/-- C5 witness: a Tuesday snapshot is discarded when loading on Wednesday. -/
theorem snapshot_wrong_weekday_ignored_witness :
    startupTasks (FileResult.parsed WeekdayTasks.default)
        (FileResult.parsed ⟨[⟨Status.Done, "x"⟩], some Weekday.Tue⟩) Weekday.Wed
      = Except.ok ⟨templateTasks (templateTexts WeekdayTasks.default Weekday.Wed), false⟩ :=
  snapshot_wrong_weekday_ignored WeekdayTasks.default [⟨Status.Done, "x"⟩]
    Weekday.Tue Weekday.Wed (by decide)

/-- C9: startup error handling is asymmetric.  A malformed template file is
fatal with the `corrupt file` condition; an absent template file yields the
built-in default and writes it out; a missing, malformed, or wrong-weekday
snapshot is non-fatal and yields the fresh template-only state. -/
theorem startup_error_asymmetry :
    (∀ (snap : FileResult Today) (w : Weekday),
      startupTasks FileResult.malformed snap w = Except.error "corrupt file") ∧
    (∀ (snap : FileResult Today) (w : Weekday),
      startupTasks FileResult.missing snap w
        = Except.ok ⟨applySnapshot (templateTasks (templateTexts WeekdayTasks.default w)) snap w,
                     true⟩) ∧
    (∀ (wt : WeekdayTasks) (w : Weekday),
      startupTasks (FileResult.parsed wt) FileResult.missing w
        = Except.ok ⟨templateTasks (templateTexts wt w), false⟩) ∧
    (∀ (wt : WeekdayTasks) (w : Weekday),
      startupTasks (FileResult.parsed wt) FileResult.malformed w
        = Except.ok ⟨templateTasks (templateTexts wt w), false⟩) ∧
    (∀ (wt : WeekdayTasks) (ts : List Task) (d w : Weekday), d ≠ w →
      startupTasks (FileResult.parsed wt) (FileResult.parsed ⟨ts, some d⟩) w
        = Except.ok ⟨templateTasks (templateTexts wt w), false⟩) := by
  refine ⟨fun snap w => rfl, fun snap w => rfl, fun wt w => rfl, fun wt w => rfl, ?_⟩
  intro wt ts d w h
  simp [startupTasks, loadWeekdayTasks, applySnapshot, h]

/-- C9 witness: the wrong-weekday conjunct at a concrete input. -/
theorem startup_error_asymmetry_witness :
    startupTasks (FileResult.parsed WeekdayTasks.default)
        (FileResult.parsed ⟨[], some Weekday.Mon⟩) Weekday.Fri
      = Except.ok ⟨templateTasks (templateTexts WeekdayTasks.default Weekday.Fri), false⟩ :=
  startup_error_asymmetry.2.2.2.2 WeekdayTasks.default [] Weekday.Mon Weekday.Fri
    (by decide)

/-- C7: from Navigate with an empty draft, pressing `i`, typing the characters
of `buy milk`, then pressing Enter appends exactly one Todo task with text
`buy milk` at the end, returns to Navigate with an empty draft, and leaves the
pre-existing tasks and the selection unchanged. -/
theorem compose_round_trip (ts : List Task) (sel : Int) :
    run [KeyCode.Char 'i', KeyCode.Char 'b', KeyCode.Char 'u', KeyCode.Char 'y',
         KeyCode.Char ' ', KeyCode.Char 'm', KeyCode.Char 'i', KeyCode.Char 'l',
         KeyCode.Char 'k', KeyCode.Enter]
      ⟨ts, sel, AppMode.Edit, ""⟩
    = StepOut.running ⟨ts ++ [⟨Status.Todo, "buy milk"⟩], sel, AppMode.Edit, ""⟩ := by
  rfl

/-- C10 helper: one key event preserves the draft-empty-in-Navigate invariant.
In Navigate every arm leaves `input_string` untouched; in Compose the only
arms that return to Navigate (`Esc`, `Enter`) leave the draft empty. -/
lemma step_preserves_navdraft (k : KeyCode) (s s' : AppState)
    (hs : NavDraftInv s) (h : step k s = StepOut.running s') : NavDraftInv s' := by
  obtain ⟨ts, sel, mode, input⟩ := s
  cases mode with
  | Edit =>
    have hinput : input = "" := hs rfl
    subst hinput
    cases k <;> simp only [step, stepEdit] at h <;> try split_ifs at h
    all_goals try split at h
    all_goals
      first
        | exact StepOut.noConfusion h
        | (injection h with h; subst h; intro hmode; rfl)
  | Insert =>
    cases k <;> simp only [step, stepInsert] at h <;>
      (injection h with h; subst h; intro hmode;
       first
         | rfl
         | exact absurd hmode (by simp))

/-- C10 helper: any run of key events preserves the invariant. -/
lemma run_preserves_navdraft (keys : List KeyCode) :
    ∀ s s' : AppState, NavDraftInv s → run keys s = StepOut.running s' →
      NavDraftInv s' := by
  induction keys with
  | nil =>
    intro s s' hs h
    injection h with h
    subst h
    exact hs
  | cons k ks ih =>
    intro s s' hs h
    simp only [run] at h
    rcases hstep : step k s with s₁ | saved | _ <;> rw [hstep] at h
    · exact ih s₁ s' (step_preserves_navdraft k s s₁ hs hstep) h
    · exact absurd h (by simp)
    · exact absurd h (by simp)

/-- C10: the implicit invariant holds in every reachable state.  Starting from
the loop's initial state (Navigate mode, empty draft), after any sequence of
key events that keeps the loop running, whenever the mode is Navigate the
draft text is empty — so entering Compose always begins with an empty draft. -/
theorem navigate_draft_always_empty (keys : List KeyCode) (ts : List Task)
    (sel : Int) (s' : AppState)
    (h : run keys ⟨ts, sel, AppMode.Edit, ""⟩ = StepOut.running s')
    (hmode : s'.app_mode = AppMode.Edit) : s'.input_string = "" :=
  run_preserves_navdraft keys ⟨ts, sel, AppMode.Edit, ""⟩ s' (fun _ => rfl) h hmode

/-- C10 witness: after entering Compose, typing a character and cancelling,
the resulting Navigate state has an empty draft. -/
theorem navigate_draft_always_empty_witness :
    (AppState.mk [] 0 AppMode.Edit "").input_string = "" :=
  navigate_draft_always_empty [KeyCode.Char 'i', KeyCode.Char 'a', KeyCode.Esc]
    [] 0 ⟨[], 0, AppMode.Edit, ""⟩ (by decide) rfl

end TodoApp
